import Mathlib

/-!
Verification of the `allusions` library: two generic algebraic data types,
an optional container (`Maybe` with variants `Some`/`Empty`, from
`allusions/maybe.py`) and a result container (`Result` with variants
`Ok`/`Err`, from `allusions/result.py`).

The embedding has two layers:

* a typed layer (`Maybe α`, `Result α ε`) with the combinators translated
  method by method from the Python source; each combinator also has an
  `Except`-flavored variant (suffix `E`) in which the user-supplied
  function may raise a Python exception, modelling the fact that Python
  calls such functions eagerly and lets their exceptions propagate;
* a dynamic layer (`PyVal`) modelling Python's runtime value universe with
  the `__eq__` methods of the four variant classes, the host `==` protocol
  with its `NotImplemented` fallback, `hash`, and `repr`.
-/

/-- Python exceptions, restricted to the kinds the library can surface:
`ValueError` (raised by `Empty.unwrap`) and `TypeError` (raised by the host
when hashing an unhashable payload). -/
inductive PyError where
  | valueError (msg : String)
  | typeError (msg : String)
deriving DecidableEq, Repr

/-- The optional container of `allusions/maybe.py`: a `Maybe` is either a
`Some` holding one value or an `Empty` holding none. -/
inductive Maybe (α : Type u) where
  | Some (o : α)
  | Empty
deriving DecidableEq, Repr

/-- `Maybe.unwrap`: `Some.unwrap` returns the contained value `self._o`;
`Empty.unwrap` raises `ValueError("No such value.")`. -/
def Maybe.unwrap : Maybe α → Except PyError α
  | .Some o => .ok o
  | .Empty => .error (.valueError "No such value.")

/-- `Some.map` returns `Some(fn(self._o))`; `Empty.map` returns `Empty()`. -/
def Maybe.map (fn : α → β) : Maybe α → Maybe β
  | .Some o => .Some (fn o)
  | .Empty => .Empty

/-- `Some.flat_map` returns `fn(self._o)`; `Empty.flat_map` returns `Empty()`. -/
def Maybe.flat_map (fn : α → Maybe β) : Maybe α → Maybe β
  | .Some o => fn o
  | .Empty => .Empty

/-- `Maybe.match` (named `match'` because `match` is reserved in Lean):
`Some.match` returns `if_some(self._o)`; `Empty.match` returns `if_empty()`. -/
def Maybe.match' (if_some : α → β) (if_empty : Unit → β) : Maybe α → β
  | .Some o => if_some o
  | .Empty => if_empty ()

/-- `Maybe.map` with a user function that may raise: `Some.map` evaluates
`fn(self._o)` (propagating its exception) and wraps the result in a `Some`;
`Empty.map` returns `Empty()` without touching `fn`. -/
def Maybe.mapE (fn : α → Except PyError β) : Maybe α → Except PyError (Maybe β)
  | .Some o => (fn o).map .Some
  | .Empty => .ok .Empty

/-- `Maybe.flat_map` with a user function that may raise. -/
def Maybe.flat_mapE (fn : α → Except PyError (Maybe β)) :
    Maybe α → Except PyError (Maybe β)
  | .Some o => fn o
  | .Empty => .ok .Empty

/-- `Maybe.match` with branch functions that may raise. -/
def Maybe.matchE (if_some : α → Except PyError β)
    (if_empty : Unit → Except PyError β) : Maybe α → Except PyError β
  | .Some o => if_some o
  | .Empty => if_empty ()

/-- The result container of `allusions/result.py`: a `Result` is either an
`Ok` holding a computed value or an `Err` holding an error. -/
inductive Result (α : Type u) (ε : Type v) where
  | Ok (o : α)
  | Err (e : ε)
deriving DecidableEq, Repr

/-- `Ok` sets the class attribute `is_ok = True`; `Err` sets `is_ok = False`. -/
def Result.is_ok : Result α ε → Bool
  | .Ok _ => true
  | .Err _ => false

/-- `Ok.ok` returns `Some(self._o)`; `Err.ok` returns `Empty()`. -/
def Result.ok : Result α ε → Maybe α
  | .Ok o => .Some o
  | .Err _ => .Empty

/-- `Ok.err` returns `Empty()`; `Err.err` returns `Some(self._e)`. -/
def Result.err : Result α ε → Maybe ε
  | .Ok _ => .Empty
  | .Err e => .Some e

/-- `Ok.map_ok` returns `Ok(fn(self._o))`; `Err.map_ok` returns `self`. -/
def Result.map_ok (fn : α → β) : Result α ε → Result β ε
  | .Ok o => .Ok (fn o)
  | .Err e => .Err e

/-- `Ok.map_err` returns `self`; `Err.map_err` returns `Err(fn(self._e))`. -/
def Result.map_err (fn : ε → η) : Result α ε → Result α η
  | .Ok o => .Ok o
  | .Err e => .Err (fn e)

/-- `Ok.flat_map` returns `fn(self._o)`; `Err.flat_map` returns `self`. -/
def Result.flat_map (fn : α → Result β ε) : Result α ε → Result β ε
  | .Ok o => fn o
  | .Err e => .Err e

/-- `Result.match` (named `match'`): `Ok.match` returns `if_ok(self._o)`;
`Err.match` returns `if_err(self._e)`. -/
def Result.match' (if_ok : α → β) (if_err : ε → β) : Result α ε → β
  | .Ok o => if_ok o
  | .Err e => if_err e

/-- `Result.map_ok` with a user function that may raise. -/
def Result.map_okE (fn : α → Except PyError β) :
    Result α ε → Except PyError (Result β ε)
  | .Ok o => (fn o).map .Ok
  | .Err e => .ok (.Err e)

/-- `Result.map_err` with a user function that may raise. -/
def Result.map_errE (fn : ε → Except PyError η) :
    Result α ε → Except PyError (Result α η)
  | .Ok o => .ok (.Ok o)
  | .Err e => (fn e).map .Err

/-- `Result.flat_map` with a user function that may raise. -/
def Result.flat_mapE (fn : α → Except PyError (Result β ε)) :
    Result α ε → Except PyError (Result β ε)
  | .Ok o => fn o
  | .Err e => .ok (.Err e)

/-- `Result.match` with branch functions that may raise. -/
def Result.matchE (if_ok : α → Except PyError β)
    (if_err : ε → Except PyError β) : Result α ε → Except PyError β
  | .Ok o => if_ok o
  | .Err e => if_err e

/-- A universe of Python runtime values, covering the payload kinds the
tests exercise (`None`, booleans, integers, strings, integer lists as a
representative unhashable payload) together with the four variant classes
of the library. -/
inductive PyVal where
  | vnone
  | vbool (b : Bool)
  | vint (n : Int)
  | vstr (s : String)
  | vlist (xs : List Int)
  | mSome (o : PyVal)
  | mEmpty
  | rOk (o : PyVal)
  | rErr (e : PyVal)
deriving DecidableEq, Repr

/-- The runtime class of a value, as Python's `type(...)` reports it. -/
inductive PyType where
  | nonetype
  | bool
  | int
  | str
  | list
  | tSome
  | tEmpty
  | tOk
  | tErr
deriving DecidableEq, Repr

/-- `type(v)` for each value of the universe. -/
def PyVal.typeOf : PyVal → PyType
  | .vnone => .nonetype
  | .vbool _ => .bool
  | .vint _ => .int
  | .vstr _ => .str
  | .vlist _ => .list
  | .mSome _ => .tSome
  | .mEmpty => .tEmpty
  | .rOk _ => .tOk
  | .rErr _ => .tErr

/-- The outcome of a Python `__eq__` call: a boolean, or the
`NotImplemented` sentinel telling the host to try the reflected operand. -/
inductive EqResult where
  | ofBool (b : Bool)
  | notImplemented
deriving DecidableEq, Repr

/-- Python's `==` on the universe, with the dunder dispatch already played
out. Primitives compare as the host does (`bool` is an `int` subtype, so
`True == 1`; lists compare elementwise; `None` only equals itself).
The four library classes compare per their `__eq__` methods: same exact
class compares payloads with the host `==`, anything else falls through
`NotImplemented` on both sides and lands on the identity fallback, `False`
for structurally distinct operands. `pyEq_protocol` below proves this
table equal to the explicit dunder-plus-fallback protocol. -/
def pyEq : PyVal → PyVal → Bool
  | .vnone, .vnone => true
  | .vbool b, .vbool c => b == c
  | .vbool b, .vint m => (if b then (1 : Int) else 0) == m
  | .vint n, .vbool c => n == (if c then (1 : Int) else 0)
  | .vint n, .vint m => n == m
  | .vstr s, .vstr t => s == t
  | .vlist xs, .vlist ys => xs == ys
  | .mSome o, .mSome p => pyEq o p
  | .mEmpty, .mEmpty => true
  | .rOk o, .rOk p => pyEq o p
  | .rErr e, .rErr f => pyEq e f
  | _, _ => false

/-- The `__eq__` method of each class, called on `a` with argument `b`.
For the library's classes this is translated from the source:
`Some.__eq__` answers only when `type(other) == Some`, comparing
`self._o == other.unwrap()` with the host `==`, and returns
`NotImplemented` otherwise; `Empty.__eq__` answers `True` exactly when
`type(other) == Empty`; `Ok.__eq__` and `Err.__eq__` mirror `Some.__eq__`
with `other.ok().unwrap()` resp. `other.err().unwrap()`. Host primitives
follow CPython: `int`/`bool` compare numerically with each other, `str`
with `str`, `list` with `list`, `None` (via the default identity
`object.__eq__`) with itself; every unhandled operand is `NotImplemented`. -/
def PyVal.dunderEq : PyVal → PyVal → EqResult
  | .vnone, .vnone => .ofBool true
  | .vnone, _ => .notImplemented
  | .vbool b, .vbool c => .ofBool (b == c)
  | .vbool b, .vint m => .ofBool ((if b then (1 : Int) else 0) == m)
  | .vbool _, _ => .notImplemented
  | .vint n, .vbool c => .ofBool (n == (if c then (1 : Int) else 0))
  | .vint n, .vint m => .ofBool (n == m)
  | .vint _, _ => .notImplemented
  | .vstr s, .vstr t => .ofBool (s == t)
  | .vstr _, _ => .notImplemented
  | .vlist xs, .vlist ys => .ofBool (xs == ys)
  | .vlist _, _ => .notImplemented
  | .mSome o, .mSome p => .ofBool (pyEq o p)
  | .mSome _, _ => .notImplemented
  | .mEmpty, .mEmpty => .ofBool true
  | .mEmpty, _ => .notImplemented
  | .rOk o, .rOk p => .ofBool (pyEq o p)
  | .rOk _, _ => .notImplemented
  | .rErr e, .rErr f => .ofBool (pyEq e f)
  | .rErr _, _ => .notImplemented

/-- The host's `==` protocol: try `a.__eq__(b)`; on `NotImplemented` try
the reflected `b.__eq__(a)`; if both decline, fall back to identity, which
is `False` for the structurally distinct operands modelled here. -/
def pyEqProto (a b : PyVal) : Bool :=
  match PyVal.dunderEq a b with
  | .ofBool r => r
  | .notImplemented =>
    match PyVal.dunderEq b a with
    | .ofBool r => r
    | .notImplemented => false

/-- Python's `hash(...)` on the universe. The library classes delegate per
their `__hash__` methods: `Some`, `Ok` and `Err` return the hash of the
payload; `Empty` returns the constant `0`. Hosts hash small ints as
themselves, booleans as their int value, and raise
`TypeError("unhashable type: 'list'")` on a list; the string and `None`
hashes are deterministic stand-ins for the host's. -/
def pyHash : PyVal → Except PyError Int
  | .vnone => .ok 5740354900026072187
  | .vbool b => .ok (if b then 1 else 0)
  | .vint n => .ok n
  | .vstr s => .ok (s.length : Int)
  | .vlist _ => .error (.typeError "unhashable type: \x27list\x27")
  | .mSome o => pyHash o
  | .mEmpty => .ok 0
  | .rOk o => pyHash o
  | .rErr e => pyHash e

/-- Python's `repr(...)` on the universe. The library classes render per
their `__repr__` methods: `Some(<repr of payload>)`, `Empty()`,
`Ok(<repr of payload>)`, `Err(<repr of payload>)`; primitives render as
the host does. -/
def pyRepr : PyVal → String
  | .vnone => "None"
  | .vbool b => if b then "True" else "False"
  | .vint n => toString n
  | .vstr s => "\x27" ++ s ++ "\x27"
  | .vlist xs => "[" ++ String.intercalate ", " (xs.map toString) ++ "]"
  | .mSome o => "Some(" ++ pyRepr o ++ ")"
  | .mEmpty => "Empty()"
  | .rOk o => "Ok(" ++ pyRepr o ++ ")"
  | .rErr e => "Err(" ++ pyRepr e ++ ")"

/-- The `==` table agrees with the explicit protocol: `a.__eq__(b)` first,
the reflected `b.__eq__(a)` on `NotImplemented`, identity fallback last. -/
theorem pyEq_protocol (a b : PyVal) : pyEq a b = pyEqProto a b := by
  cases a <;> cases b <;> simp [pyEq, pyEqProto, PyVal.dunderEq]

/-- `==` is reflexive on the universe. -/
theorem pyEq_refl (a : PyVal) : pyEq a a = true := by
  induction a <;> simp [pyEq, *]

/-- `==` is symmetric on the universe. -/
theorem pyEq_symm (a b : PyVal) : pyEq a b = pyEq b a := by
  induction a generalizing b <;> cases b <;> simp_all [pyEq] <;>
    exact eq_comm

/-- Values the host compares equal hash equally. -/
theorem pyEq_hash_congr (a b : PyVal) (h : pyEq a b = true) :
    pyHash a = pyHash b := by
  induction a generalizing b <;> cases b <;>
    simp_all [pyEq, pyHash] <;> solve_by_elim

/-- With user-supplied functions that return normally, every combinator
of both types returns normally. Shared between the fallibility claims. -/
theorem totalE {α β ε : Type} (m : Maybe α) (r : Result α ε)
    (f : α → Except PyError β) (g : α → Except PyError (Maybe β))
    (e0 : Unit → Except PyError β) (fr : α → Except PyError (Result β ε))
    (fe : ε → Except PyError β)
    (hf : ∀ x, (f x).isOk = true) (hg : ∀ x, (g x).isOk = true)
    (he : (e0 ()).isOk = true) (hfr : ∀ x, (fr x).isOk = true)
    (hfe : ∀ x, (fe x).isOk = true) :
    (m.mapE f).isOk = true ∧ (m.flat_mapE g).isOk = true ∧
    (m.matchE f e0).isOk = true ∧ (r.map_okE f).isOk = true ∧
    (r.map_errE fe).isOk = true ∧ (r.flat_mapE fr).isOk = true ∧
    (r.matchE f fe).isOk = true := by
  refine ⟨?_, ?_, ?_, ?_, ?_, ?_, ?_⟩
  · cases m with
    | Some o =>
      have := hf o
      cases hfo : f o <;>
        simp_all [Maybe.mapE, Except.isOk, Except.toBool, Except.map]
    | Empty => rfl
  · cases m with
    | Some o => exact hg o
    | Empty => rfl
  · cases m with
    | Some o => exact hf o
    | Empty => exact he
  · cases r with
    | Ok o =>
      have := hf o
      cases hfo : f o <;>
        simp_all [Result.map_okE, Except.isOk, Except.toBool, Except.map]
    | Err e => rfl
  · cases r with
    | Ok o => rfl
    | Err e =>
      have := hfe e
      cases hfo : fe e <;>
        simp_all [Result.map_errE, Except.isOk, Except.toBool, Except.map]
  · cases r with
    | Ok o => exact hfr o
    | Err e => rfl
  · cases r with
    | Ok o => exact hf o
    | Err e => exact hfe e

/-- C1: `Some(v).unwrap()` returns the contained value `v` itself, and
`Empty().unwrap()` always fails by raising `ValueError("No such value.")`,
a distinct catchable error kind (a `valueError` is never a `typeError`).
Moreover `unwrap` on `Empty` is the only operation in either type that can
fail of its own accord: whenever the user-supplied functions return
normally, `map`, `flat_map` and `match` on any `Maybe` and `map_ok`,
`map_err`, `flat_map` and `match` on any `Result` return normally as well
(and `ok`, `err`, `is_ok` are total functions by construction). -/
theorem c1_unwrap {α β ε : Type} (v : α) (m : Maybe α) (r : Result α ε)
    (f : α → Except PyError β) (g : α → Except PyError (Maybe β))
    (e0 : Unit → Except PyError β) (fr : α → Except PyError (Result β ε))
    (fe : ε → Except PyError β)
    (hf : ∀ x, (f x).isOk = true) (hg : ∀ x, (g x).isOk = true)
    (he : (e0 ()).isOk = true) (hfr : ∀ x, (fr x).isOk = true)
    (hfe : ∀ x, (fe x).isOk = true) :
    (Maybe.Some v).unwrap = Except.ok v ∧
    (Maybe.Empty : Maybe α).unwrap =
      Except.error (PyError.valueError "No such value.") ∧
    (∀ m1 m2, PyError.valueError m1 ≠ PyError.typeError m2) ∧
    (m.mapE f).isOk = true ∧ (m.flat_mapE g).isOk = true ∧
    (m.matchE f e0).isOk = true ∧
    (r.map_okE f).isOk = true ∧ (r.map_errE fe).isOk = true ∧
    (r.flat_mapE fr).isOk = true ∧ (r.matchE f fe).isOk = true := by
  obtain ⟨h1, h2, h3, h4, h5, h6, h7⟩ :=
    totalE m r f g e0 fr fe hf hg he hfr hfe
  exact ⟨rfl, rfl, fun m1 m2 h => PyError.noConfusion h,
    h1, h2, h3, h4, h5, h6, h7⟩

/-- Witness for C1 at concrete inputs: integer payloads and total user
functions. -/
theorem c1_unwrap_witness :
    (Maybe.Some (3 : Int)).unwrap = Except.ok 3 ∧
    (Maybe.Empty : Maybe Int).unwrap =
      Except.error (PyError.valueError "No such value.") := by
  have h := @c1_unwrap Int Int Int 3 (Maybe.Some 3) (Result.Ok 3)
    (fun x => Except.ok x) (fun x => Except.ok (Maybe.Some x))
    (fun _ => Except.ok 0) (fun x => Except.ok (Result.Ok x))
    (fun x => Except.ok x)
    (fun _ => rfl) (fun _ => rfl) rfl (fun _ => rfl) (fun _ => rfl)
  exact ⟨h.1, h.2.1⟩

/-- C2: the combinator laws of `Maybe` hold for every value of the type:
mapping the identity is the identity, mapping `f` then `g` equals mapping
the composition, `flat_map` into `Some` is the identity, and
`Some(v).flat_map(f)` is `f(v)` returned directly with no re-wrapping. -/
theorem c2_maybe_laws {α β γ : Type u} (v : α) (m : Maybe α)
    (f : α → β) (g : β → γ) (k : α → Maybe β) :
    m.map id = m ∧ (m.map f).map g = m.map (g ∘ f) ∧
    m.flat_map Maybe.Some = m ∧ (Maybe.Some v).flat_map k = k v := by
  refine ⟨?_, ?_, ?_, rfl⟩ <;> cases m <;>
    simp [Maybe.map, Maybe.flat_map]

/-- C3: `Ok(v).is_ok` is true and `Err(e).is_ok` is false; `ok()` and
`err()` are the accessors coupling `Result` to `Maybe`: `Ok(v).ok()` is
`Some(v)`, `Ok(v).err()` is `Empty()`, `Err(e).ok()` is `Empty()`,
`Err(e).err()` is `Some(e)`; consequently `Ok(v).ok().unwrap()` returns
`v` and `Err(e).ok().unwrap()` raises the empty-unwrap `ValueError`. -/
theorem c3_result_accessors {α ε : Type u} (v : α) (e : ε) :
    (Result.Ok v : Result α ε).is_ok = true ∧
    (Result.Err e : Result α ε).is_ok = false ∧
    (Result.Ok v : Result α ε).ok = Maybe.Some v ∧
    (Result.Ok v : Result α ε).err = Maybe.Empty ∧
    (Result.Err e : Result α ε).ok = Maybe.Empty ∧
    (Result.Err e : Result α ε).err = Maybe.Some e ∧
    (Result.Ok v : Result α ε).ok.unwrap = Except.ok v ∧
    (Result.Err e : Result α ε).ok.unwrap =
      Except.error (PyError.valueError "No such value.") :=
  ⟨rfl, rfl, rfl, rfl, rfl, rfl, rfl, rfl⟩

/-- C4: `match` dispatches exactly one branch on both types. `Some(v)`
returns `if_some(v)` and the result does not depend on `if_empty` (it is
never invoked); `Empty()` returns `if_empty()` independently of `if_some`;
`Ok(v)` returns `if_ok(v)` independently of `if_err`; `Err(e)` returns
`if_err(e)` independently of `if_ok`. -/
theorem c4_match_dispatch {α ε γ : Type u} (v : α) (e : ε)
    (if_some : α → γ) (if_empty : Unit → γ)
    (if_ok : α → γ) (if_err : ε → γ) :
    (Maybe.Some v).match' if_some if_empty = if_some v ∧
    (∀ e1 e2 : Unit → γ,
      (Maybe.Some v).match' if_some e1 = (Maybe.Some v).match' if_some e2) ∧
    (Maybe.Empty : Maybe α).match' if_some if_empty = if_empty () ∧
    (∀ s1 s2 : α → γ,
      (Maybe.Empty : Maybe α).match' s1 if_empty =
        (Maybe.Empty : Maybe α).match' s2 if_empty) ∧
    (Result.Ok v : Result α ε).match' if_ok if_err = if_ok v ∧
    (∀ e1 e2 : ε → γ,
      (Result.Ok v : Result α ε).match' if_ok e1 =
        (Result.Ok v : Result α ε).match' if_ok e2) ∧
    (Result.Err e : Result α ε).match' if_ok if_err = if_err e ∧
    (∀ o1 o2 : α → γ,
      (Result.Err e : Result α ε).match' o1 if_err =
        (Result.Err e : Result α ε).match' o2 if_err) :=
  ⟨rfl, fun _ _ => rfl, rfl, fun _ _ => rfl,
   rfl, fun _ _ => rfl, rfl, fun _ _ => rfl⟩

/-- C5: `Result`'s mapping combinators touch only their own variant.
`Ok(v).map_ok(f)` is `Ok(f(v))` and `Ok(v).flat_map(f)` is `f(v)`, while
`Ok(v).map_err(g)` is the unchanged `Ok(v)` with a result independent of
`g` (never invoked); symmetrically `Err(e).map_err(g)` is `Err(g(e))`,
while `Err(e).map_ok(f)` and `Err(e).flat_map(f)` are the unchanged
`Err(e)` with results independent of `f`. -/
theorem c5_result_frame {α β ε η : Type u} (v : α) (e : ε)
    (f : α → β) (g : ε → η) (k : α → Result β ε) :
    (Result.Ok v : Result α ε).map_ok f = Result.Ok (f v) ∧
    (Result.Ok v : Result α ε).flat_map k = k v ∧
    (Result.Ok v : Result α ε).map_err g = Result.Ok v ∧
    (∀ g1 g2 : ε → η,
      (Result.Ok v : Result α ε).map_err g1 =
        (Result.Ok v : Result α ε).map_err g2) ∧
    (Result.Err e : Result α ε).map_err g = Result.Err (g e) ∧
    (Result.Err e : Result α ε).map_ok f = Result.Err e ∧
    (Result.Err e : Result α ε).flat_map k = Result.Err e ∧
    (∀ f1 f2 : α → β,
      (Result.Err e : Result α ε).map_ok f1 =
        (Result.Err e : Result α ε).map_ok f2) ∧
    (∀ k1 k2 : α → Result β ε,
      (Result.Err e : Result α ε).flat_map k1 =
        (Result.Err e : Result α ε).flat_map k2) :=
  ⟨rfl, rfl, rfl, fun _ _ => rfl, rfl, rfl, rfl,
   fun _ _ => rfl, fun _ _ => rfl⟩

/-- C6: `Empty().map(f)` and `Empty().flat_map(f)` both return `Empty()`
for every `f`, and in both cases the result is independent of `f` (the
function is never invoked, so two runs with different functions yield the
same `Empty` result). -/
theorem c6_empty_map {α β : Type u} (f : α → β) (g : α → Maybe β) :
    (Maybe.Empty : Maybe α).map f = Maybe.Empty ∧
    (Maybe.Empty : Maybe α).flat_map g = Maybe.Empty ∧
    (∀ f1 f2 : α → β,
      (Maybe.Empty : Maybe α).map f1 = (Maybe.Empty : Maybe α).map f2) ∧
    (∀ g1 g2 : α → Maybe β,
      (Maybe.Empty : Maybe α).flat_map g1 =
        (Maybe.Empty : Maybe α).flat_map g2) :=
  ⟨rfl, rfl, fun _ _ => rfl, fun _ _ => rfl⟩

/-- C7: equality and hashing are structural for both types.
`Some(x) == Some(y)` iff `x == y`; any two `Empty()` are equal; a `Some`
and an `Empty` are never equal; `Ok(x) == Ok(y)` iff `x == y`;
`Err(x) == Err(y)` iff `x == y`; an `Ok` and an `Err` are never equal
regardless of payload; `==` is reflexive and symmetric; and `Some(v)`,
`Ok(v)`, `Err(e)` hash as their payloads while `Empty()` hashes to the
fixed constant `0`, so equal instances hash equally. -/
theorem c7_eq_hash :
    (∀ x y, pyEq (PyVal.mSome x) (PyVal.mSome y) = pyEq x y) ∧
    pyEq PyVal.mEmpty PyVal.mEmpty = true ∧
    (∀ x, pyEq (PyVal.mSome x) PyVal.mEmpty = false ∧
      pyEq PyVal.mEmpty (PyVal.mSome x) = false) ∧
    (∀ x y, pyEq (PyVal.rOk x) (PyVal.rOk y) = pyEq x y) ∧
    (∀ x y, pyEq (PyVal.rErr x) (PyVal.rErr y) = pyEq x y) ∧
    (∀ x y, pyEq (PyVal.rOk x) (PyVal.rErr y) = false ∧
      pyEq (PyVal.rErr x) (PyVal.rOk y) = false) ∧
    (∀ a, pyEq a a = true) ∧
    (∀ a b, pyEq a b = pyEq b a) ∧
    (∀ v, pyHash (PyVal.mSome v) = pyHash v) ∧
    pyHash PyVal.mEmpty = Except.ok 0 ∧
    (∀ v, pyHash (PyVal.rOk v) = pyHash v) ∧
    (∀ e, pyHash (PyVal.rErr e) = pyHash e) ∧
    (∀ a b, pyEq a b = true → pyHash a = pyHash b) :=
  ⟨fun _ _ => rfl, rfl, fun _ => ⟨rfl, rfl⟩, fun _ _ => rfl, fun _ _ => rfl,
   fun _ _ => ⟨rfl, rfl⟩, pyEq_refl, pyEq_symm, fun _ => rfl, rfl,
   fun _ => rfl, fun _ => rfl, pyEq_hash_congr⟩

/-- Witness for C7's equal-values-hash-equally implication at a concrete
pair the host compares equal across classes, `1 == True`. -/
theorem c7_eq_hash_witness :
    pyEq (PyVal.vint 1) (PyVal.vbool true) = true ∧
    pyHash (PyVal.vint 1) = pyHash (PyVal.vbool true) :=
  ⟨by decide,
   c7_eq_hash.2.2.2.2.2.2.2.2.2.2.2.2 (PyVal.vint 1) (PyVal.vbool true)
     (by decide)⟩

/-- C8: no operation other than `Empty`'s `unwrap` fails. With user
functions that return normally, every combinator of both types returns
normally (`ok`, `err`, `is_ok`, equality and `repr` take no user function
and are total by construction: they are plain functions, not
`Except`-valued). A failure raised by a user-supplied function propagates
unmodified to the caller, never caught, wrapped or translated. Hashing a
container delegates directly to the host hash of the payload, so hashing
an unhashable payload propagates the host's native `TypeError`. -/
theorem c8_no_other_failure {α β ε : Type} (v : α) (e : ε) (err : PyError)
    (m : Maybe α) (r : Result α ε)
    (f : α → Except PyError β) (g : α → Except PyError (Maybe β))
    (e0 : Unit → Except PyError β) (fr : α → Except PyError (Result β ε))
    (fe : ε → Except PyError β)
    (hf : ∀ x, (f x).isOk = true) (hg : ∀ x, (g x).isOk = true)
    (he : (e0 ()).isOk = true) (hfr : ∀ x, (fr x).isOk = true)
    (hfe : ∀ x, (fe x).isOk = true) :
    ((m.mapE f).isOk = true ∧ (m.flat_mapE g).isOk = true ∧
      (m.matchE f e0).isOk = true ∧ (r.map_okE f).isOk = true ∧
      (r.map_errE fe).isOk = true ∧ (r.flat_mapE fr).isOk = true ∧
      (r.matchE f fe).isOk = true) ∧
    (∀ f1 : α → Except PyError β, f1 v = Except.error err →
      (Maybe.Some v).mapE f1 = Except.error err) ∧
    (∀ g1 : α → Except PyError (Maybe β), g1 v = Except.error err →
      (Maybe.Some v).flat_mapE g1 = Except.error err) ∧
    (∀ (f1 : α → Except PyError β) (e1 : Unit → Except PyError β),
      f1 v = Except.error err →
      (Maybe.Some v).matchE f1 e1 = Except.error err) ∧
    (∀ (f1 : α → Except PyError β) (e1 : Unit → Except PyError β),
      e1 () = Except.error err →
      (Maybe.Empty : Maybe α).matchE f1 e1 = Except.error err) ∧
    (∀ f1 : α → Except PyError β, f1 v = Except.error err →
      (Result.Ok v : Result α ε).map_okE f1 = Except.error err) ∧
    (∀ m1 : ε → Except PyError β, m1 e = Except.error err →
      (Result.Err e : Result α ε).map_errE m1 = Except.error err) ∧
    (∀ k1 : α → Except PyError (Result β ε), k1 v = Except.error err →
      (Result.Ok v : Result α ε).flat_mapE k1 = Except.error err) ∧
    (∀ (f1 : α → Except PyError β) (e1 : ε → Except PyError β),
      f1 v = Except.error err →
      (Result.Ok v : Result α ε).matchE f1 e1 = Except.error err) ∧
    (∀ (f1 : α → Except PyError β) (e1 : ε → Except PyError β),
      e1 e = Except.error err →
      (Result.Err e : Result α ε).matchE f1 e1 = Except.error err) ∧
    (∀ w, pyHash (PyVal.mSome w) = pyHash w ∧
      pyHash (PyVal.rOk w) = pyHash w ∧ pyHash (PyVal.rErr w) = pyHash w) ∧
    pyHash (PyVal.mSome (PyVal.vlist [])) =
      Except.error (PyError.typeError "unhashable type: \x27list\x27") := by
  refine ⟨(totalE m r f g e0 fr fe hf hg he hfr hfe), ?_, ?_, ?_, ?_, ?_,
    ?_, ?_, ?_, ?_, fun w => ⟨rfl, rfl, rfl⟩, rfl⟩
  · intro f1 h1
    simp [Maybe.mapE, h1, Except.map]
  · intro g1 h1
    simpa [Maybe.flat_mapE] using h1
  · intro f1 e1 h1
    simpa [Maybe.matchE] using h1
  · intro f1 e1 h1
    simpa [Maybe.matchE] using h1
  · intro f1 h1
    simp [Result.map_okE, h1, Except.map]
  · intro m1 h1
    simp [Result.map_errE, h1, Except.map]
  · intro k1 h1
    simpa [Result.flat_mapE] using h1
  · intro f1 e1 h1
    simpa [Result.matchE] using h1
  · intro f1 e1 h1
    simpa [Result.matchE] using h1

/-- Witness for C8: a raising user function's error surfaces unmodified,
and hashing a `Some` over a list raises the host `TypeError`. -/
theorem c8_no_other_failure_witness :
    (Maybe.Some (1 : Int)).mapE
      (fun _ => (Except.error (PyError.valueError "boom") :
        Except PyError Int)) =
      Except.error (PyError.valueError "boom") ∧
    pyHash (PyVal.mSome (PyVal.vlist [])) =
      Except.error (PyError.typeError "unhashable type: \x27list\x27") := by
  have h := @c8_no_other_failure Int Int Int 1 2
    (PyError.valueError "boom") (Maybe.Some 1) (Result.Ok 1)
    (fun x => Except.ok x) (fun x => Except.ok (Maybe.Some x))
    (fun _ => Except.ok 0) (fun x => Except.ok (Result.Ok x))
    (fun x => Except.ok x)
    (fun _ => rfl) (fun _ => rfl) rfl (fun _ => rfl) (fun _ => rfl)
  exact ⟨h.2.1 (fun _ => Except.error (PyError.valueError "boom")) rfl,
    h.2.2.2.2.2.2.2.2.2.2.2⟩

/-- C9: the textual representation renders `Some(v)` as
`Some(<repr of v>)` and `Empty()` as `Empty()`, and nests correctly:
`repr(Some(Some(1)))` is `"Some(Some(1))"` and `repr(Some(Empty()))` is
`"Some(Empty())"`. -/
theorem c9_repr :
    (∀ v, pyRepr (PyVal.mSome v) = "Some(" ++ pyRepr v ++ ")") ∧
    pyRepr PyVal.mEmpty = "Empty()" ∧
    pyRepr (PyVal.mSome (PyVal.mSome (PyVal.vint 1))) = "Some(Some(1))" ∧
    pyRepr (PyVal.mSome PyVal.mEmpty) = "Some(Empty())" :=
  ⟨fun _ => rfl, rfl, by decide, rfl⟩

/-- C10: comparing a container against anything that is not exactly its
own variant class never answers through the container's own `__eq__`:
each of the four `__eq__` methods returns `NotImplemented` when the
operand's type differs, so the host falls back and reports inequality;
in particular `Some(v) == Ok(v)` is false, `Empty() == Err(v)` is false,
and `Some(v) == v` is false whenever `v`'s own equality does not claim
the comparison. -/
theorem c10_notimplemented (v other : PyVal) :
    (other.typeOf ≠ PyType.tSome →
      (PyVal.mSome v).dunderEq other = EqResult.notImplemented) ∧
    (other.typeOf ≠ PyType.tEmpty →
      PyVal.mEmpty.dunderEq other = EqResult.notImplemented) ∧
    (other.typeOf ≠ PyType.tOk →
      (PyVal.rOk v).dunderEq other = EqResult.notImplemented) ∧
    (other.typeOf ≠ PyType.tErr →
      (PyVal.rErr v).dunderEq other = EqResult.notImplemented) ∧
    pyEq (PyVal.mSome v) (PyVal.rOk v) = false ∧
    pyEq PyVal.mEmpty (PyVal.rErr v) = false ∧
    (PyVal.dunderEq v (PyVal.mSome v) = EqResult.notImplemented →
      pyEq (PyVal.mSome v) v = false) := by
  refine ⟨?_, ?_, ?_, ?_, rfl, rfl, ?_⟩ <;>
    cases other <;> cases v <;>
      simp_all [PyVal.dunderEq, PyVal.typeOf, pyEq]

/-- Witness for C10 at concrete operands: `Some(1).__eq__(Ok(1))` is
`NotImplemented` and `Some(1) == 1` is false. -/
theorem c10_notimplemented_witness :
    (PyVal.mSome (PyVal.vint 1)).dunderEq (PyVal.rOk (PyVal.vint 1)) =
      EqResult.notImplemented ∧
    pyEq (PyVal.mSome (PyVal.vint 1)) (PyVal.vint 1) = false :=
  ⟨(c10_notimplemented (PyVal.vint 1) (PyVal.rOk (PyVal.vint 1))).1
     (by decide),
   (c10_notimplemented (PyVal.vint 1)
     (PyVal.rOk (PyVal.vint 1))).2.2.2.2.2.2 (by decide)⟩
